import Mathlib

/-!
Verification of the Universe navigation and camera-control core.

Shallow embedding of the repository sources:
  src/utils/math.ts        (lerp, clamp, damp)
  src/scene/createSolarSystem.ts  (createSolarSystem, updateSolarSystem)
  src/controls/flightControls.ts  (FlightControls)
  src/controls/focusControls.ts   (FocusControls)
  src/main.ts               (CosmosApp.animate, the per-frame loop)

JavaScript numbers are modelled as real numbers.  THREE.js primitives
(Vector3, Quaternion, Euler) are modelled by their mathematical
definitions, taken from the THREE source the repository calls into.
Mutation is modelled by explicit state passing: a method that mutates
`this` and/or the camera returns the new values.
-/

/-! ## THREE.Vector3 -/

/-- A THREE.Vector3: a triple of real components. -/
@[ext]
structure Vec3 where
  x : ℝ
  y : ℝ
  z : ℝ

namespace Vec3

noncomputable def zero : Vec3 := ⟨0, 0, 0⟩

noncomputable def add (a b : Vec3) : Vec3 := ⟨a.x + b.x, a.y + b.y, a.z + b.z⟩

noncomputable def sub (a b : Vec3) : Vec3 := ⟨a.x - b.x, a.y - b.y, a.z - b.z⟩

noncomputable def multiplyScalar (a : Vec3) (s : ℝ) : Vec3 := ⟨a.x * s, a.y * s, a.z * s⟩

noncomputable def lengthSq (a : Vec3) : ℝ := a.x ^ 2 + a.y ^ 2 + a.z ^ 2

/-- THREE.Vector3.length: the Euclidean norm. -/
noncomputable def length (a : Vec3) : ℝ := Real.sqrt (a.x ^ 2 + a.y ^ 2 + a.z ^ 2)

/-- THREE.Vector3.distanceTo. -/
noncomputable def distanceTo (a b : Vec3) : ℝ := (a.sub b).length

/-- THREE.Vector3.normalize divides by the length, substituting 1 for a
zero length (the source's `this.length() || 1`). -/
noncomputable def normalize (a : Vec3) : Vec3 :=
  a.multiplyScalar (1 / (if a.length = 0 then 1 else a.length))

/-- THREE.Vector3.cross. -/
noncomputable def cross (a b : Vec3) : Vec3 :=
  ⟨a.y * b.z - a.z * b.y, a.z * b.x - a.x * b.z, a.x * b.y - a.y * b.x⟩

/-- THREE.Vector3.lerpVectors: componentwise v1 + (v2 - v1) * alpha. -/
noncomputable def lerpVectors (v1 v2 : Vec3) (alpha : ℝ) : Vec3 :=
  ⟨v1.x + (v2.x - v1.x) * alpha, v1.y + (v2.y - v1.y) * alpha, v1.z + (v2.z - v1.z) * alpha⟩

/-- THREE.Vector3.lerp: interpolate this vector toward v. -/
noncomputable def lerpTo (a v : Vec3) (alpha : ℝ) : Vec3 := lerpVectors a v alpha

end Vec3

/-! ## THREE.Quaternion -/

/-- A THREE.Quaternion. -/
@[ext]
structure Quat where
  x : ℝ
  y : ℝ
  z : ℝ
  w : ℝ

namespace Quat

noncomputable def neg (q : Quat) : Quat := ⟨-q.x, -q.y, -q.z, -q.w⟩

end Quat

/-- THREE.Quaternion.setFromEuler for the 'YXZ' rotation order used by the
flight controls (the flight controller keeps roll ez = 0). -/
noncomputable def quatFromEulerYXZ (ex ey ez : ℝ) : Quat :=
  let c1 := Real.cos (ex / 2)
  let c2 := Real.cos (ey / 2)
  let c3 := Real.cos (ez / 2)
  let s1 := Real.sin (ex / 2)
  let s2 := Real.sin (ey / 2)
  let s3 := Real.sin (ez / 2)
  ⟨s1 * c2 * c3 + c1 * s2 * s3,
   c1 * s2 * c3 - s1 * c2 * s3,
   c1 * c2 * s3 - s1 * s2 * c3,
   c1 * c2 * c3 + s1 * s2 * s3⟩

/-- THREE.Vector3.applyQuaternion: t = 2 q.xyz x v; v + q.w t + q.xyz x t. -/
noncomputable def Vec3.applyQuaternion (v : Vec3) (q : Quat) : Vec3 :=
  let qv : Vec3 := ⟨q.x, q.y, q.z⟩
  let t := (qv.cross v).multiplyScalar 2
  (v.add (t.multiplyScalar q.w)).add (qv.cross t)

/-- Math.atan2 y x, realized as the argument of the complex number x + y i. -/
noncomputable def atan2 (y x : ℝ) : ℝ := Complex.arg ⟨x, y⟩

/-! ## src/utils/math.ts -/

/-- Source: math.ts lerp. -/
noncomputable def lerp (start finish t : ℝ) : ℝ := start + (finish - start) * t

/-- Source: math.ts clamp(value, min, max) = Math.max(min, Math.min(max, value)). -/
noncomputable def clamp (value lo hi : ℝ) : ℝ := max lo (min hi value)

/-- Source: math.ts damp(current, target, smoothTime, deltaTime):
exponential decay toward the target with the given smoothing time. -/
noncomputable def damp (current target smoothTime deltaTime : ℝ) : ℝ :=
  lerp current target (1 - Real.exp (-deltaTime / smoothTime))

/-- THREE.Quaternion.slerp q t from this toward q.  The float-epsilon
near-linear branch of the source is idealized to the exact boundary, which
in exact arithmetic is only reached at cosHalfTheta = 1 (already returned
above it). -/
noncomputable def Quat.slerp (qa qb : Quat) (t : ℝ) : Quat :=
  if t = 0 then qa
  else if t = 1 then qb
  else
    let cosHalfTheta0 := qa.w * qb.w + qa.x * qb.x + qa.y * qb.y + qa.z * qb.z
    let qb' := if cosHalfTheta0 < 0 then qb.neg else qb
    let cosHalfTheta := |cosHalfTheta0|
    if 1 ≤ cosHalfTheta then qa
    else
      let sinHalfTheta := Real.sqrt (1 - cosHalfTheta ^ 2)
      let halfTheta := atan2 sinHalfTheta cosHalfTheta
      let r1 := Real.sin ((1 - t) * halfTheta) / sinHalfTheta
      let r2 := Real.sin (t * halfTheta) / sinHalfTheta
      ⟨qa.x * r1 + qb'.x * r2, qa.y * r1 + qb'.y * r2,
       qa.z * r1 + qb'.z * r2, qa.w * r1 + qb'.w * r2⟩

/-- THREE.Quaternion.setFromRotationMatrix applied to the rotation matrix
THREE.Matrix4.lookAt(eye, target, up) builds; the focus controller uses it
to derive the look-at orientation.  The float nudges the source applies
when eye = target or the view direction is parallel to up are idealized to
the exact degenerate values. -/
noncomputable def lookAtQuaternion (eye target up : Vec3) : Quat :=
  let z0 := eye.sub target
  let z1 := if z0.lengthSq = 0 then ⟨z0.x, z0.y, 1⟩ else z0
  let z2 := z1.normalize
  let x0 := up.cross z2
  let z3 := if x0.lengthSq = 0 then
      (if |up.z| = 1 then (⟨z2.x + 0.0001, z2.y, z2.z⟩ : Vec3).normalize
       else (⟨z2.x, z2.y, z2.z + 0.0001⟩ : Vec3).normalize)
    else z2
  let x1 := if x0.lengthSq = 0 then up.cross z3 else x0
  let xb := x1.normalize
  let yb := z3.cross xb
  let m11 := xb.x
  let m12 := yb.x
  let m13 := z3.x
  let m21 := xb.y
  let m22 := yb.y
  let m23 := z3.y
  let m31 := xb.z
  let m32 := yb.z
  let m33 := z3.z
  let trace := m11 + m22 + m33
  if 0 < trace then
    let s := 0.5 / Real.sqrt (trace + 1)
    ⟨(m32 - m23) * s, (m13 - m31) * s, (m21 - m12) * s, 0.25 / s⟩
  else if m22 < m11 ∧ m33 < m11 then
    let s := 2 * Real.sqrt (1 + m11 - m22 - m33)
    ⟨0.25 * s, (m12 + m21) / s, (m13 + m31) / s, (m32 - m23) / s⟩
  else if m33 < m22 then
    let s := 2 * Real.sqrt (1 + m22 - m11 - m33)
    ⟨(m12 + m21) / s, 0.25 * s, (m23 + m32) / s, (m13 - m31) / s⟩
  else
    let s := 2 * Real.sqrt (1 + m33 - m11 - m22)
    ⟨(m13 + m31) / s, (m23 + m32) / s, 0.25 * s, (m21 - m12) / s⟩

/-! ## src/scene/createSolarSystem.ts — data model

The source declares one recursive record PlanetData whose optional moons
field again holds PlanetData; no code ever reads a moon's own moons, so
the embedding splits the record into BodyCore (the fields shared by
planets and moons) and PlanetData (a top-level body together with its
satellites).  The rendering-only fields (description, color, textures,
rings, orbit lines, labels) are omitted; the mesh is kept as the spin
angle it stores (mesh.rotation.y), which is the only mesh state the
navigation core reads or writes. -/

/-- The mesh state the update loop touches: the accumulated spin angle
mesh.rotation.y. -/
@[ext]
structure Mesh where
  rotationY : ℝ

/-- The orbital fields of a body (planet or moon). -/
structure BodyCore where
  name : String
  radius : ℝ
  orbitRadius : ℝ
  orbitPeriod : ℝ
  rotationPeriod : ℝ
  tilt : ℝ
  mesh : Option Mesh
  position : Option Vec3

/-- A top-level body with its satellites. -/
structure PlanetData extends BodyCore where
  moons : List BodyCore

/-- The gameplay constant scaling elapsed time to orbital angle; the
source writes the literal 0.1 inline in updateSolarSystem. -/
noncomputable def angularScale : ℝ := 0.1

/-- The gameplay constant scaling reciprocal rotation period to per-frame
spin increment; the source writes the literal 0.01 inline. -/
noncomputable def spinScale : ℝ := 0.01

/-- Source: createSolarSystem.ts createPlanet.  The mesh is created with
spin angle 0 and the initial position is set to (orbitRadius, 0, 0).
No field of the body is validated. -/
noncomputable def createPlanet (b : BodyCore) : BodyCore :=
  { b with position := some ⟨b.orbitRadius, 0, 0⟩, mesh := some ⟨0⟩ }

/-- Source: createSolarSystem.ts createSolarSystem, restricted to the
state the navigation core reads: every entry of the catalog, and every
moon of every entry, is registered via createPlanet.  The source performs
no validation whatsoever; registration is a total function. -/
noncomputable def createSolarSystem (planetsData : List PlanetData) : List PlanetData :=
  planetsData.map fun p =>
    { createPlanet p.toBodyCore with moons := p.moons.map createPlanet }

/-- Source: createSolarSystem.ts updateSolarSystem, inner moon loop.  The
moon is skipped when it has no mesh; otherwise its position is recomputed
from the parent position passed in and its spin is advanced by
(1 / rotationPeriod) * 0.01 with no guard against rotationPeriod = 0
(in the source a zero period produces a non-finite spin; real division
by zero yields 0 here, so claims about the moon spin carry a
rotationPeriod ≠ 0 hypothesis). -/
noncomputable def updateMoon (parentPos : Vec3) (time : ℝ) (m : BodyCore) : BodyCore :=
  match m.mesh with
  | none => m
  | some mesh =>
    let moonAngle := (time / m.orbitPeriod) * angularScale
    let moonLocalPos : Vec3 :=
      ⟨Real.cos moonAngle * m.orbitRadius, 0, Real.sin moonAngle * m.orbitRadius⟩
    { m with position := some (parentPos.add moonLocalPos),
             mesh := some ⟨mesh.rotationY + (1 / m.rotationPeriod) * spinScale⟩ }

/-- Source: createSolarSystem.ts updateSolarSystem, outer loop body for
one planet.  A planet without a mesh is skipped together with its moons;
otherwise its position is recomputed from the absolute time, its spin is
advanced by (1 / rotationPeriod) * 0.01 when rotationPeriod is nonzero
and left unchanged when it is zero, and each moon is updated against the
freshly computed parent position. -/
noncomputable def updatePlanet (time : ℝ) (p : PlanetData) : PlanetData :=
  match p.mesh with
  | none => p
  | some mesh =>
    let angle := (time / p.orbitPeriod) * angularScale
    let pos : Vec3 := ⟨Real.cos angle * p.orbitRadius, 0, Real.sin angle * p.orbitRadius⟩
    let rotationSpeed := if p.rotationPeriod ≠ 0 then (1 / p.rotationPeriod) * spinScale else 0
    { p with position := some pos,
             mesh := some ⟨mesh.rotationY + rotationSpeed⟩,
             moons := p.moons.map (updateMoon pos time) }

/-- Source: createSolarSystem.ts updateSolarSystem over the whole body
list (the sun rotation, labels and orbit-line visuals are omitted: the
navigation core never reads them). -/
noncomputable def updateSolarSystem (planets : List PlanetData) (time : ℝ) : List PlanetData :=
  planets.map (updatePlanet time)

/-! ## src/controls/flightControls.ts -/

/-- Speed settings of FlightControls (fields of the class). -/
noncomputable def baseSpeed : ℝ := 30

noncomputable def boostMultiplier : ℝ := 8

/-- The smoothing time passed to damp while a direction is commanded. -/
noncomputable def acceleration : ℝ := 30

/-- The smoothing time passed to damp while no direction is commanded. -/
noncomputable def damping : ℝ := 5

noncomputable def mouseSensitivity : ℝ := 0.002

/-- The mutable state of FlightControls: the seven movement flags, the
velocity, the YXZ euler orientation (roll stays 0) and the pointer-lock
flag, plus whether the two exposed callbacks are registered. -/
structure FlightControls where
  moveForward : Bool
  moveBackward : Bool
  moveLeft : Bool
  moveRight : Bool
  moveUp : Bool
  moveDown : Bool
  boost : Bool
  velocity : Vec3
  eulerX : ℝ
  eulerY : ℝ
  isLocked : Bool
  hasOnLockCallback : Bool
  hasOnUnlockCallback : Bool

/-- The camera state both controllers drive. -/
structure Camera where
  position : Vec3
  quaternion : Quat

/-- The externally observable effects of one FlightControls event
handler or method call: which exposed callback it invoked, whether it
issued a new pointer-capture request, and whether it logged a console
error. -/
structure HandlerEffects where
  invokedOnLock : Bool
  invokedOnUnlock : Bool
  requestedPointerLock : Bool
  consoleErrorLogged : Bool

/-- Source: flightControls.ts setupPointerLock onMouseMove.  Ignored
unless locked; yaw and pitch accumulate the scaled deltas and pitch is
clamped to [-PI/2, PI/2]. -/
noncomputable def onMouseMove (fc : FlightControls) (movementX movementY : ℝ) : FlightControls :=
  if fc.isLocked then
    { fc with
      eulerY := fc.eulerY - movementX * mouseSensitivity,
      eulerX := clamp (fc.eulerX - movementY * mouseSensitivity) (-(Real.pi / 2)) (Real.pi / 2) }
  else fc

/-- Source: flightControls.ts setupPointerLock onPointerlockChange: the
lock flag follows the document's pointer-lock element and the matching
registered callback is invoked. -/
def onPointerlockChange (fc : FlightControls) (lockedNow : Bool) : FlightControls × HandlerEffects :=
  ({ fc with isLocked := lockedNow },
   if lockedNow then ⟨fc.hasOnLockCallback, false, false, false⟩
   else ⟨false, fc.hasOnUnlockCallback, false, false⟩)

/-- Source: flightControls.ts setupPointerLock onPointerlockError: the
handler only logs to the console; no state changes, no exposed callback
is invoked, and no new capture request is issued. -/
def onPointerlockError (fc : FlightControls) : FlightControls × HandlerEffects :=
  (fc, ⟨false, false, false, true⟩)

/-- Source: flightControls.ts lock(): requests pointer capture and
nothing else; the state transition happens only in onPointerlockChange. -/
def FlightControls.lock (fc : FlightControls) : FlightControls × HandlerEffects :=
  (fc, ⟨false, false, true, false⟩)

/-- Source: flightControls.ts update, the movement-direction vector built
from the six movement flags in camera-local space. -/
noncomputable def FlightControls.rawDirection (fc : FlightControls) : Vec3 :=
  ⟨(if fc.moveRight then 1 else 0) - (if fc.moveLeft then 1 else 0),
   (if fc.moveUp then 1 else 0) - (if fc.moveDown then 1 else 0),
   (if fc.moveBackward then 1 else 0) - (if fc.moveForward then 1 else 0)⟩

/-- Source: flightControls.ts update, the direction after normalization
(only when non-zero) and rotation into world space by the orientation. -/
noncomputable def FlightControls.worldDirection (fc : FlightControls) : Vec3 :=
  let d0 := fc.rawDirection
  let d1 := if 0 < d0.length then d0.normalize else d0
  d1.applyQuaternion (quatFromEulerYXZ fc.eulerX fc.eulerY 0)

/-- Source: flightControls.ts update, the target velocity: the world
direction scaled by baseSpeed times the boost multiplier. -/
noncomputable def FlightControls.targetVelocity (fc : FlightControls) : Vec3 :=
  fc.worldDirection.multiplyScalar (baseSpeed * (if fc.boost then boostMultiplier else 1))

/-- Source: flightControls.ts update, the smoothing time handed to damp:
acceleration while a direction is commanded, damping otherwise.  The
source tests this.direction after it has been scaled by the (positive)
target speed, so the test is on the scaled vector. -/
noncomputable def FlightControls.dampingFactor (fc : FlightControls) : ℝ :=
  if 0 < fc.targetVelocity.length then acceleration else damping

/-- Source: flightControls.ts update(deltaTime).  Mirrors the method
statement by statement through the helper definitions above. -/
noncomputable def FlightControls.update (fc : FlightControls) (cam : Camera) (deltaTime : ℝ) :
    FlightControls × Camera :=
  if fc.isLocked then
    let q := quatFromEulerYXZ fc.eulerX fc.eulerY 0
    let targetVelocity := fc.targetVelocity
    let dampingFactor := fc.dampingFactor
    let velocity : Vec3 :=
      ⟨damp fc.velocity.x targetVelocity.x dampingFactor deltaTime,
       damp fc.velocity.y targetVelocity.y dampingFactor deltaTime,
       damp fc.velocity.z targetVelocity.z dampingFactor deltaTime⟩
    ({ fc with velocity := velocity },
     { position := cam.position.add (velocity.multiplyScalar deltaTime), quaternion := q })
  else (fc, cam)

/-- Source: flightControls.ts getSpeed(): the velocity magnitude. -/
noncomputable def FlightControls.getSpeed (fc : FlightControls) : ℝ := fc.velocity.length

/-- Source: flightControls.ts disable(): clears the seven movement flags
and zeroes the velocity. -/
noncomputable def FlightControls.disable (fc : FlightControls) : FlightControls :=
  { fc with
    moveForward := false, moveBackward := false, moveLeft := false, moveRight := false,
    moveUp := false, moveDown := false, boost := false, velocity := ⟨0, 0, 0⟩ }

/-! ## src/controls/focusControls.ts

The source stores the focus target as an object reference into the live
body list, so position reads through it always see the latest update.
The embedding stores the target's name (body names in the catalog are
unique) and resolves it against the current body list wherever the
source dereferences the pointer. -/

/-- FocusControls field defaults: transitionSpeed. -/
noncomputable def transitionSpeed : ℝ := 2

/-- FocusControls field defaults: orbitSpeed. -/
noncomputable def orbitSpeed : ℝ := 0.3

/-- The mutable state of FocusControls. -/
structure FocusControls where
  targetPlanet : Option String
  isFocused : Bool
  focusDistance : ℝ
  focusOffset : Vec3
  currentOffset : Vec3
  transitionProgress : ℝ
  orbitAngle : ℝ
  orbitRadius : ℝ
  originalPosition : Vec3
  originalQuaternion : Quat

/-- Resolve a stored target reference against the live body list: the
planet or moon carrying the name. -/
def findBody (planets : List PlanetData) (name : String) : Option BodyCore :=
  planets.findSome? fun p =>
    if p.name = name then some p.toBodyCore
    else p.moons.find? fun m => m.name = name

/-- Source: focusControls.ts easeInOutCubic. -/
noncomputable def easeInOutCubic (t : ℝ) : ℝ :=
  if t < 0.5 then 4 * t * t * t else 1 - (-2 * t + 2) ^ 3 / 2

/-- Source: focusControls.ts focusOnPlanet(planet).  A body without a
mesh or without a position is refused up front (early return); otherwise
the camera pose is saved, the orbit radius is derived from the body
radius, the initial orbit angle is taken from the current bearing to the
body, and the transition starts at progress 0.  The method never writes
the camera, so the camera is returned unchanged. -/
noncomputable def focusOnPlanet (fc : FocusControls) (cam : Camera) (planet : BodyCore) :
    FocusControls × Camera :=
  match planet.mesh, planet.position with
  | some _, some ppos =>
    let orbitRadius := planet.radius * 3
    let focusDistance := orbitRadius
    let directionToPlanet := (ppos.sub cam.position).normalize
    let focusOffset := directionToPlanet.multiplyScalar (-focusDistance)
    ({ fc with
        originalPosition := cam.position,
        originalQuaternion := cam.quaternion,
        targetPlanet := some planet.name,
        isFocused := true,
        transitionProgress := 0,
        orbitRadius := orbitRadius,
        focusDistance := focusDistance,
        focusOffset := focusOffset,
        currentOffset := focusOffset,
        orbitAngle := atan2 directionToPlanet.x directionToPlanet.z },
     cam)
  | _, _ => (fc, cam)

/-- One candidate step of the focusOnNearest scan: a body without a
position is skipped, a body strictly closer than the best so far (none
standing for the initial Infinity) replaces it. -/
noncomputable def considerBody (cam : Camera) (best : Option (BodyCore × ℝ)) (b : BodyCore) :
    Option (BodyCore × ℝ) :=
  match b.position with
  | none => best
  | some pos =>
    let d := cam.position.distanceTo pos
    match best with
    | none => some (b, d)
    | some (w, dw) => if d < dw then some (b, d) else some (w, dw)

/-- Source: focusControls.ts focusOnNearest, the scanning loop: each
top-level body is considered and then its moons, except that a top-level
body without a position is skipped together with its moons (the
source's continue sits before the moon loop). -/
noncomputable def nearestScan (cam : Camera) (planets : List PlanetData) : Option BodyCore :=
  (planets.foldl
    (fun best p =>
      match p.position with
      | none => best
      | some _ => p.moons.foldl (considerBody cam) (considerBody cam best p.toBodyCore))
    none).map Prod.fst

/-- Source: focusControls.ts focusOnNearest(planets): scan, focus on the
winner when there is one, and return it. -/
noncomputable def focusOnNearest (fc : FocusControls) (cam : Camera) (planets : List PlanetData) :
    FocusControls × Camera × Option BodyCore :=
  match nearestScan cam planets with
  | some w =>
    let (fc', cam') := focusOnPlanet fc cam w
    (fc', cam', some w)
  | none => (fc, cam, none)

/-- Source: focusControls.ts returnToFreeFlight(). -/
def returnToFreeFlight (fc : FocusControls) : FocusControls :=
  if fc.isFocused then { fc with isFocused := false, targetPlanet := none } else fc

/-- Source: focusControls.ts getDistanceToTarget(), resolving the target
reference against the live body list; 0 is the documented sentinel when
no target (or no target position) is set. -/
noncomputable def getDistanceToTarget (fc : FocusControls) (cam : Camera)
    (planets : List PlanetData) : ℝ :=
  match fc.targetPlanet.bind (findBody planets) with
  | none => 0
  | some b =>
    match b.position with
    | none => 0
    | some pos => cam.position.distanceTo pos

/-- Source: focusControls.ts update(deltaTime).  Nothing happens unless
focused with a target that has a position.  Otherwise the transition
progress advances clamped at 1, the orbit angle advances, the ideal orbit
position is derived from the target's current position, the camera
position is blended (cubic ease from the saved start while the
transition runs, exponential follow afterwards), and the orientation is
slerped toward the look-at of the just-moved camera position. -/
noncomputable def FocusControls.update (fc : FocusControls) (cam : Camera)
    (planets : List PlanetData) (deltaTime : ℝ) : FocusControls × Camera :=
  match fc.isFocused, fc.targetPlanet.bind (findBody planets) with
  | true, some target =>
    match target.position with
    | none => (fc, cam)
    | some targetPosition =>
      let transitionProgress := min (fc.transitionProgress + deltaTime * transitionSpeed) 1
      let orbitAngle := fc.orbitAngle + orbitSpeed * deltaTime
      let orbitOffset : Vec3 :=
        ⟨Real.sin orbitAngle * fc.orbitRadius,
         fc.orbitRadius * 0.3,
         Real.cos orbitAngle * fc.orbitRadius⟩
      let idealPosition := targetPosition.add orbitOffset
      let position :=
        if transitionProgress < 1 then
          Vec3.lerpVectors fc.originalPosition idealPosition (easeInOutCubic transitionProgress)
        else
          cam.position.lerpTo idealPosition (1 - Real.exp (-5 * deltaTime))
      let targetQuaternion := lookAtQuaternion position targetPosition ⟨0, 1, 0⟩
      let quaternion := cam.quaternion.slerp targetQuaternion (1 - Real.exp (-8 * deltaTime))
      ({ fc with transitionProgress := transitionProgress, orbitAngle := orbitAngle },
       { position := position, quaternion := quaternion })
  | _, _ => (fc, cam)

/-! ## src/main.ts — the per-frame driving loop -/

/-- The navigation-relevant application state main.ts owns. -/
structure AppState where
  time : ℝ
  planets : List PlanetData
  camera : Camera
  flightControls : FlightControls
  focusControls : FocusControls

/-- The display scalars the loop hands to the HUD each frame. -/
structure HudData where
  speed : ℝ
  targetName : Option String
  distance : ℝ

/-- Source: main.ts CosmosApp.animate, one frame with the delta the clock
returned.  The statement order is the source's: the clock advances, the
driving controller updates (reading the body positions as they stand,
i.e. those computed in the previous frame), then updateSolarSystem
recomputes the bodies at the new time, then the HUD scalars are derived
(the distance reads the target through the live reference, hence the
just-updated body list). -/
noncomputable def animateFrame (s : AppState) (deltaTime : ℝ) : AppState × HudData :=
  let time := s.time + deltaTime
  let (flightControls, focusControls, camera) :=
    if s.focusControls.isFocused then
      let (fo, cam') := s.focusControls.update s.camera s.planets deltaTime
      (s.flightControls, fo, cam')
    else
      let (fl, cam') := s.flightControls.update s.camera deltaTime
      (fl, s.focusControls, cam')
  let planets := updateSolarSystem s.planets time
  let speed := if focusControls.isFocused then 0 else flightControls.getSpeed
  let distance :=
    if focusControls.isFocused then getDistanceToTarget focusControls camera planets else 0
  ({ time := time, planets := planets, camera := camera,
     flightControls := flightControls, focusControls := focusControls },
   ⟨speed, focusControls.targetPlanet, distance⟩)

/-- Modelled from the spec: the per-frame order the specification states,
namely (1) advance the clock, (2) recompute all body positions and spins,
(3) update the currently driving controller using the freshly recomputed
positions, (4) derive the display scalars.  Identical to animateFrame
except that updateSolarSystem runs before the controller update and the
controller therefore reads the new positions. -/
noncomputable def animateFrameSpecOrder (s : AppState) (deltaTime : ℝ) : AppState × HudData :=
  let time := s.time + deltaTime
  let planets := updateSolarSystem s.planets time
  let (flightControls, focusControls, camera) :=
    if s.focusControls.isFocused then
      let (fo, cam') := s.focusControls.update s.camera planets deltaTime
      (s.flightControls, fo, cam')
    else
      let (fl, cam') := s.flightControls.update s.camera deltaTime
      (fl, s.focusControls, cam')
  let speed := if focusControls.isFocused then 0 else flightControls.getSpeed
  let distance :=
    if focusControls.isFocused then getDistanceToTarget focusControls camera planets else 0
  ({ time := time, planets := planets, camera := camera,
     flightControls := flightControls, focusControls := focusControls },
   ⟨speed, focusControls.targetPlanet, distance⟩)

/-! ## Concrete fixtures used by counterexamples and witnesses -/

/-- A camera resting at (10, 0, 0) with the identity orientation. -/
noncomputable def testCamera : Camera := ⟨⟨10, 0, 0⟩, ⟨0, 0, 0, 1⟩⟩

/-- A camera at the origin with the identity orientation. -/
noncomputable def originCamera : Camera := ⟨⟨0, 0, 0⟩, ⟨0, 0, 0, 1⟩⟩

/-- An idle, unlocked flight controller at rest with both callbacks
registered. -/
noncomputable def testFlight : FlightControls :=
  ⟨false, false, false, false, false, false, false, ⟨0, 0, 0⟩, 0, 0, false, true, true⟩

/-- A locked flight controller commanding forward motion. -/
noncomputable def lockedFlight : FlightControls :=
  ⟨true, false, false, false, false, false, false, ⟨0, 0, 0⟩, 0, 0, true, true, true⟩

/-- An idle focus controller. -/
noncomputable def idleFocus : FocusControls :=
  ⟨none, false, 0, ⟨0, 0, 0⟩, ⟨0, 0, 0⟩, 0, 0, 0, ⟨10, 0, 0⟩, ⟨0, 0, 0, 1⟩⟩

/-- A registered body on a unit orbit with rotation period 1 and spin 0,
as it stands at simulation time 0. -/
noncomputable def spinPlanet : PlanetData :=
  { name := "Terra", radius := 1, orbitRadius := 1, orbitPeriod := 1, rotationPeriod := 1,
    tilt := 0, mesh := some ⟨0⟩, position := some ⟨1, 0, 0⟩, moons := [] }

/-- A body whose mesh is not set. -/
noncomputable def ghostBody : BodyCore :=
  ⟨"Ghost", 1, 2, 3, 4, 0, none, some ⟨0, 0, 0⟩⟩

/-- A catalog entry with a non-positive orbit period. -/
noncomputable def badComet : PlanetData :=
  { name := "Comet", radius := 1, orbitRadius := 2, orbitPeriod := -1, rotationPeriod := 1,
    tilt := 0, mesh := none, position := none, moons := [] }

/-! ## C10 — focusOnPlanet with a missing mesh or position is a no-op -/

/-- C10: calling the focus controller's focus-on-target operation with a
body whose mesh or current position is unset is a complete no-op: every
focus-state field and the camera pose are left exactly as they were. -/
theorem focusOnPlanet_missing_noop (fc : FocusControls) (cam : Camera) (p : BodyCore)
    (h : p.mesh = none ∨ p.position = none) :
    focusOnPlanet fc cam p = (fc, cam) := by
  rcases h with h | h
  · cases hp : p.position <;> simp [focusOnPlanet, h, hp]
  · cases hm : p.mesh <;> simp [focusOnPlanet, h, hm]

/-- C10 witness: the no-op at a concrete meshless body. -/
theorem focusOnPlanet_missing_noop_witness :
    (ghostBody.mesh = none ∨ ghostBody.position = none) ∧
    focusOnPlanet idleFocus testCamera ghostBody = (idleFocus, testCamera) :=
  ⟨Or.inl rfl, focusOnPlanet_missing_noop idleFocus testCamera ghostBody (Or.inl rfl)⟩

/-! ## C9 — pointer-capture failure handling -/

/-- C9 counterexample: a pointer-lock failure event invokes neither of the
two callbacks the controller exposes (it only logs to the console), so the
failure is not reported through an explicit controller callback.  The
state — in particular the Unlocked flag — is untouched and no new capture
request is issued. -/
theorem pointerlockError_no_callback_cex :
    (onPointerlockError testFlight).2.invokedOnLock = false ∧
    (onPointerlockError testFlight).2.invokedOnUnlock = false ∧
    (onPointerlockError testFlight).2.requestedPointerLock = false ∧
    (onPointerlockError testFlight).2.consoleErrorLogged = true ∧
    (onPointerlockError testFlight).1 = testFlight :=
  ⟨rfl, rfl, rfl, rfl, rfl⟩

/-- C9 amended: a failed pointer-capture request is only logged to the
console — no controller-exposed callback is invoked — while the
controller state (hence the Unlocked flag) is unchanged and no retry
request is issued; while unlocked, update is inert, so movement stays
dead until a later successful capture. -/
theorem pointerlockError_logs_only (fc : FlightControls) (cam : Camera) (dt : ℝ) :
    onPointerlockError fc = (fc, ⟨false, false, false, true⟩) ∧
    (fc.isLocked = false → fc.update cam dt = (fc, cam)) := by
  refine ⟨rfl, fun h => ?_⟩
  simp [FlightControls.update, h]

/-! ## C4 — the velocity damping factors -/

/-- C4 counterexample: the smoothing time passed to damp while a
direction is commanded (acceleration = 30) is not smaller than the one
used while coasting (damping = 5), and at dt = 1 the accelerating
response factor 1 - exp(-dt/30) is strictly smaller — a strictly slower
response, the opposite of the claimed strictly faster one. -/
theorem accel_slower_cex :
    ¬ acceleration < damping ∧
    1 - Real.exp (-1 / acceleration) < 1 - Real.exp (-1 / damping) := by
  constructor
  · simp only [acceleration, damping]
    norm_num
  · have h : Real.exp (-1 / damping) < Real.exp (-1 / acceleration) := by
      apply Real.exp_lt_exp.mpr
      simp only [acceleration, damping]
      norm_num
    linarith

/-- C4 amended: the per-tick velocity update exponentially approaches the
target velocity through damp, whose response factor over a step dt with
smoothing time s is 1 - exp(-dt/s); the smoothing time while a nonzero
direction is commanded (acceleration = 30) is strictly larger than the
one used when the commanded direction is zero (damping = 5), so for the
same positive dt the accelerating response is strictly slower — gentle
starts and comparatively brisk stops, the reverse of the claimed
relation. -/
theorem flight_velocity_damping (fc : FlightControls) (cam : Camera) (dt : ℝ)
    (hl : fc.isLocked = true) :
    (fc.update cam dt).1.velocity =
      ⟨damp fc.velocity.x fc.targetVelocity.x fc.dampingFactor dt,
       damp fc.velocity.y fc.targetVelocity.y fc.dampingFactor dt,
       damp fc.velocity.z fc.targetVelocity.z fc.dampingFactor dt⟩ ∧
    (∀ current target s τ : ℝ,
      damp current target s τ = current + (target - current) * (1 - Real.exp (-τ / s))) ∧
    (0 < fc.targetVelocity.length → fc.dampingFactor = acceleration) ∧
    (¬ 0 < fc.targetVelocity.length → fc.dampingFactor = damping) ∧
    damping < acceleration ∧
    (∀ τ : ℝ, 0 < τ →
      1 - Real.exp (-τ / acceleration) < 1 - Real.exp (-τ / damping)) := by
  refine ⟨?_, ?_, ?_, ?_, ?_, ?_⟩
  · simp [FlightControls.update, hl]
  · intro current target s τ
    simp [damp, lerp]
  · intro h
    simp [FlightControls.dampingFactor, h]
  · intro h
    simp [FlightControls.dampingFactor, h]
  · simp only [damping, acceleration]
    norm_num
  · intro τ hτ
    simp only [damping, acceleration]
    have h : Real.exp (-τ / 5) < Real.exp (-τ / 30) :=
      Real.exp_lt_exp.mpr (by linarith)
    linarith

/-- C4 witness: the amended statement at a concrete locked controller. -/
theorem flight_velocity_damping_witness :
    lockedFlight.isLocked = true ∧
    ((lockedFlight.update testCamera 1).1.velocity =
      ⟨damp lockedFlight.velocity.x lockedFlight.targetVelocity.x lockedFlight.dampingFactor 1,
       damp lockedFlight.velocity.y lockedFlight.targetVelocity.y lockedFlight.dampingFactor 1,
       damp lockedFlight.velocity.z lockedFlight.targetVelocity.z lockedFlight.dampingFactor 1⟩ ∧
    (∀ current target s τ : ℝ,
      damp current target s τ = current + (target - current) * (1 - Real.exp (-τ / s))) ∧
    (0 < lockedFlight.targetVelocity.length → lockedFlight.dampingFactor = acceleration) ∧
    (¬ 0 < lockedFlight.targetVelocity.length → lockedFlight.dampingFactor = damping) ∧
    damping < acceleration ∧
    (∀ τ : ℝ, 0 < τ →
      1 - Real.exp (-τ / acceleration) < 1 - Real.exp (-τ / damping))) :=
  ⟨rfl, flight_velocity_damping lockedFlight testCamera 1 rfl⟩

/-! ## C2 — the spin update -/

/-- C2 counterexample: over a frame that advances the clock from 0 to 2
(frame delta dt = 2), the spin of a body with rotationPeriod 1 advances
by spinScale = (1 / 1) * 0.01, not by the claimed
(1 / rotationPeriod) * spinScale * dt = 0.02: the update never multiplies
the spin increment by the frame delta. -/
theorem spin_ignores_dt_cex :
    (updatePlanet 2 spinPlanet).mesh = some ⟨spinScale⟩ ∧
    spinScale ≠ 1 / spinPlanet.rotationPeriod * spinScale * 2 := by
  constructor
  · simp [updatePlanet, spinPlanet]
  · simp only [spinPlanet, spinScale]
    norm_num

/-- C2 amended: per update call the spin of a top-level body with nonzero
rotationPeriod advances by exactly (1 / rotationPeriod) * spinScale —
independent of the frame delta and of the simulation time, so the
accumulated spin is frame-count dependent, not frame-rate independent —
and is unchanged when rotationPeriod is 0; a moon's spin advances by the
same unguarded increment, stated here for nonzero rotationPeriod because
the source divides without a zero check. -/
theorem spin_update_per_frame (p : PlanetData) (mesh : Mesh) (t : ℝ)
    (hm : p.mesh = some mesh) :
    (p.rotationPeriod ≠ 0 →
      (updatePlanet t p).mesh = some ⟨mesh.rotationY + 1 / p.rotationPeriod * spinScale⟩) ∧
    (p.rotationPeriod = 0 → (updatePlanet t p).mesh = some mesh) ∧
    (∀ t' : ℝ, (updatePlanet t p).mesh = (updatePlanet t' p).mesh) ∧
    (∀ (m : BodyCore) (mm : Mesh) (parentPos : Vec3), m.mesh = some mm →
      m.rotationPeriod ≠ 0 →
      (updateMoon parentPos t m).mesh = some ⟨mm.rotationY + 1 / m.rotationPeriod * spinScale⟩) := by
  refine ⟨fun hrp => ?_, fun hrp => ?_, fun t' => ?_, fun m mm parentPos hmm hrp => ?_⟩
  · simp [updatePlanet, hm, hrp]
  · obtain ⟨r⟩ := mesh
    simp [updatePlanet, hm, hrp]
  · simp [updatePlanet, hm]
  · simp [updateMoon, hmm]

/-- C2 witness: the amended statement at a concrete body with rotation
period 1 and at simulation time 5. -/
theorem spin_update_per_frame_witness :
    spinPlanet.mesh = some ⟨0⟩ ∧
    ((spinPlanet.rotationPeriod ≠ 0 →
      (updatePlanet 5 spinPlanet).mesh =
        some ⟨(Mesh.mk 0).rotationY + 1 / spinPlanet.rotationPeriod * spinScale⟩) ∧
    (spinPlanet.rotationPeriod = 0 → (updatePlanet 5 spinPlanet).mesh = some ⟨0⟩) ∧
    (∀ t' : ℝ, (updatePlanet 5 spinPlanet).mesh = (updatePlanet t' spinPlanet).mesh) ∧
    (∀ (m : BodyCore) (mm : Mesh) (parentPos : Vec3), m.mesh = some mm →
      m.rotationPeriod ≠ 0 →
      (updateMoon parentPos 5 m).mesh =
        some ⟨mm.rotationY + 1 / m.rotationPeriod * spinScale⟩)) :=
  ⟨rfl, spin_update_per_frame spinPlanet ⟨0⟩ 5 rfl⟩

/-! ## C3 — registration performs no validation -/

/-- C3 counterexample: a catalog containing a body with orbitPeriod = -1
(non-positive) is accepted by registration — createSolarSystem is total
and returns the body, registered with a live mesh and initial position
(orbitRadius, 0, 0) — rather than being rejected with a configuration
error before any update step runs. -/
theorem registration_accepts_cex :
    badComet.orbitPeriod ≤ 0 ∧
    createSolarSystem [badComet] =
      [{ name := "Comet", radius := 1, orbitRadius := 2, orbitPeriod := -1,
         rotationPeriod := 1, tilt := 0, mesh := some ⟨0⟩, position := some ⟨2, 0, 0⟩,
         moons := [] }] := by
  constructor
  · simp only [badComet]
    norm_num
  · simp [createSolarSystem, createPlanet, badComet]

/-- C3 amended: registration validates nothing — every catalog entry,
whatever its orbitPeriod, is registered (the body count is preserved and
each body reappears with its mesh created and its position initialized to
(orbitRadius, 0, 0)); a body with rotationPeriod = 0 is likewise accepted
and its spin is left unchanged by every update step. -/
theorem registration_unvalidated (bodies : List PlanetData) (p : PlanetData) (t : ℝ)
    (hp : p ∈ bodies) :
    (createSolarSystem bodies).length = bodies.length ∧
    ({ createPlanet p.toBodyCore with moons := p.moons.map createPlanet } : PlanetData) ∈
      createSolarSystem bodies ∧
    (createPlanet p.toBodyCore).position = some ⟨p.orbitRadius, 0, 0⟩ ∧
    (createPlanet p.toBodyCore).mesh = some ⟨0⟩ ∧
    (∀ mesh : Mesh, p.rotationPeriod = 0 → p.mesh = some mesh →
      (updatePlanet t p).mesh = some mesh) := by
  refine ⟨?_, ?_, rfl, rfl, fun mesh hrp hm => ?_⟩
  · simp [createSolarSystem]
  · exact List.mem_map_of_mem _ hp
  · obtain ⟨r⟩ := mesh
    simp [updatePlanet, hm, hrp]

/-- C3 witness: the amended statement for a one-entry catalog holding the
non-positive-orbit-period body. -/
theorem registration_unvalidated_witness :
    badComet ∈ [badComet] ∧
    ((createSolarSystem [badComet]).length = [badComet].length ∧
    ({ createPlanet badComet.toBodyCore with moons := badComet.moons.map createPlanet } :
        PlanetData) ∈ createSolarSystem [badComet] ∧
    (createPlanet badComet.toBodyCore).position = some ⟨badComet.orbitRadius, 0, 0⟩ ∧
    (createPlanet badComet.toBodyCore).mesh = some ⟨0⟩ ∧
    (∀ mesh : Mesh, badComet.rotationPeriod = 0 → badComet.mesh = some mesh →
      (updatePlanet 1 badComet).mesh = some mesh)) :=
  ⟨List.mem_singleton_self badComet,
   registration_unvalidated [badComet] badComet 1 (List.mem_singleton_self badComet)⟩

/-! ## C7 — the pitch clamp invariant -/

/-- A sequence of relative pointer-motion deltas processed in order by
the mouse-move handler. -/
noncomputable def applyMouseMoves (fc : FlightControls) (ds : List (ℝ × ℝ)) : FlightControls :=
  ds.foldl (fun s d => onMouseMove s d.1 d.2) fc

lemma clamp_mem (value lo hi : ℝ) (h : lo ≤ hi) :
    lo ≤ clamp value lo hi ∧ clamp value lo hi ≤ hi := by
  unfold clamp
  constructor
  · exact le_max_left lo (min hi value)
  · exact max_le h (min_le_left hi value)

lemma onMouseMove_pitch (fc : FlightControls) (dx dy : ℝ)
    (h : -(Real.pi / 2) ≤ fc.eulerX ∧ fc.eulerX ≤ Real.pi / 2) :
    -(Real.pi / 2) ≤ (onMouseMove fc dx dy).eulerX ∧
      (onMouseMove fc dx dy).eulerX ≤ Real.pi / 2 := by
  unfold onMouseMove
  by_cases hl : fc.isLocked
  · simp only [hl, if_true]
    exact clamp_mem _ _ _ (by linarith [Real.pi_nonneg])
  · simp only [hl, if_false]
    exact h

/-- C7: after any sequence of relative pointer-motion deltas, the pitch
component of the orientation stays within [-90 degrees, +90 degrees]
(here [-pi/2, pi/2] radians), for every initial in-range orientation. -/
theorem pitch_stays_clamped (fc : FlightControls) (ds : List (ℝ × ℝ))
    (hlo : -(Real.pi / 2) ≤ fc.eulerX) (hhi : fc.eulerX ≤ Real.pi / 2) :
    -(Real.pi / 2) ≤ (applyMouseMoves fc ds).eulerX ∧
      (applyMouseMoves fc ds).eulerX ≤ Real.pi / 2 := by
  induction ds generalizing fc with
  | nil => exact ⟨hlo, hhi⟩
  | cons d rest ih =>
    have step := onMouseMove_pitch fc d.1 d.2 ⟨hlo, hhi⟩
    simpa [applyMouseMoves] using ih (onMouseMove fc d.1 d.2) step.1 step.2

/-- C7 witness: the clamp invariant at a concrete delta sequence from the
level orientation. -/
theorem pitch_stays_clamped_witness :
    (-(Real.pi / 2) ≤ testFlight.eulerX ∧ testFlight.eulerX ≤ Real.pi / 2) ∧
    (-(Real.pi / 2) ≤ (applyMouseMoves testFlight [(1, 2), (-3, 4)]).eulerX ∧
      (applyMouseMoves testFlight [(1, 2), (-3, 4)]).eulerX ≤ Real.pi / 2) := by
  have h1 : -(Real.pi / 2) ≤ testFlight.eulerX := by
    show -(Real.pi / 2) ≤ 0
    linarith [Real.pi_nonneg]
  have h2 : testFlight.eulerX ≤ Real.pi / 2 := by
    show (0 : ℝ) ≤ Real.pi / 2
    linarith [Real.pi_nonneg]
  exact ⟨⟨h1, h2⟩, pitch_stays_clamped testFlight [(1, 2), (-3, 4)] h1 h2⟩

/-! ## C8 — disable comes to rest and stays there -/

lemma applyQuaternion_zero (q : Quat) : (Vec3.mk 0 0 0).applyQuaternion q = ⟨0, 0, 0⟩ := by
  simp only [Vec3.applyQuaternion, Vec3.cross, Vec3.multiplyScalar, Vec3.add]
  ext <;> simp

lemma length_zero : (Vec3.mk 0 0 0).length = 0 := by
  simp [Vec3.length]

/-- All seven movement flags of a controller are clear. -/
def FlightControls.atRest (fc : FlightControls) : Prop :=
  fc.moveForward = false ∧ fc.moveBackward = false ∧ fc.moveLeft = false ∧
  fc.moveRight = false ∧ fc.moveUp = false ∧ fc.moveDown = false ∧ fc.boost = false ∧
  fc.velocity = ⟨0, 0, 0⟩

lemma targetVelocity_at_rest (fc : FlightControls) (h : fc.atRest) :
    fc.targetVelocity = ⟨0, 0, 0⟩ := by
  obtain ⟨h1, h2, h3, h4, h5, h6, h7, hv⟩ := h
  have hraw : fc.rawDirection = ⟨0, 0, 0⟩ := by
    simp [FlightControls.rawDirection, h1, h2, h3, h4, h5, h6]
  have hworld : fc.worldDirection = ⟨0, 0, 0⟩ := by
    simp only [FlightControls.worldDirection, hraw, length_zero, lt_irrefl, if_false]
    exact applyQuaternion_zero _
  simp only [FlightControls.targetVelocity, hworld, Vec3.multiplyScalar]
  ext <;> simp

lemma update_at_rest (fc : FlightControls) (cam : Camera) (dt : ℝ) (h : fc.atRest) :
    (fc.update cam dt).1 = fc ∧ (fc.update cam dt).2.position = cam.position := by
  have hv := h.2.2.2.2.2.2.2
  have htv := targetVelocity_at_rest fc h
  have hvel :
      (⟨damp fc.velocity.x fc.targetVelocity.x fc.dampingFactor dt,
        damp fc.velocity.y fc.targetVelocity.y fc.dampingFactor dt,
        damp fc.velocity.z fc.targetVelocity.z fc.dampingFactor dt⟩ : Vec3) = ⟨0, 0, 0⟩ := by
    rw [hv, htv]
    simp [damp, lerp]
  have hfc : ({ fc with velocity := (⟨0, 0, 0⟩ : Vec3) } : FlightControls) = fc := by
    rw [← hv]
  by_cases hl : fc.isLocked
  · unfold FlightControls.update
    rw [if_pos hl]
    refine ⟨?_, ?_⟩
    · show ({ fc with velocity :=
        (⟨damp fc.velocity.x fc.targetVelocity.x fc.dampingFactor dt,
          damp fc.velocity.y fc.targetVelocity.y fc.dampingFactor dt,
          damp fc.velocity.z fc.targetVelocity.z fc.dampingFactor dt⟩ : Vec3) } :
        FlightControls) = fc
      rw [hvel, hfc]
    · show cam.position.add
        ((⟨damp fc.velocity.x fc.targetVelocity.x fc.dampingFactor dt,
           damp fc.velocity.y fc.targetVelocity.y fc.dampingFactor dt,
           damp fc.velocity.z fc.targetVelocity.z fc.dampingFactor dt⟩ : Vec3).multiplyScalar dt) =
        cam.position
      rw [hvel]
      simp [Vec3.add, Vec3.multiplyScalar]
  · unfold FlightControls.update
    rw [if_neg hl]
    exact ⟨rfl, rfl⟩

/-- Iterate the per-frame update over a list of frame deltas. -/
noncomputable def updateTicks (sc : FlightControls × Camera) (dts : List ℝ) :
    FlightControls × Camera :=
  dts.foldl (fun sc dt => sc.1.update sc.2 dt) sc

/-- C8: disable() clears all seven movement flags and zeroes the
velocity, so getSpeed() returns 0 immediately, and every subsequent
update tick — with no movement flag set again — leaves the camera
position unchanged (zero position delta) and the velocity zero. -/
theorem disable_comes_to_rest (fc : FlightControls) (cam : Camera) (dts : List ℝ) :
    fc.disable.moveForward = false ∧ fc.disable.moveBackward = false ∧
    fc.disable.moveLeft = false ∧ fc.disable.moveRight = false ∧
    fc.disable.moveUp = false ∧ fc.disable.moveDown = false ∧
    fc.disable.boost = false ∧ fc.disable.velocity = ⟨0, 0, 0⟩ ∧
    fc.disable.getSpeed = 0 ∧
    (updateTicks (fc.disable, cam) dts).2.position = cam.position ∧
    (updateTicks (fc.disable, cam) dts).1.velocity = ⟨0, 0, 0⟩ := by
  have hrest : fc.disable.atRest := by
    refine ⟨rfl, rfl, rfl, rfl, rfl, rfl, rfl, rfl⟩
  have hspeed : fc.disable.getSpeed = 0 := by
    show fc.disable.velocity.length = 0
    rw [show fc.disable.velocity = ⟨0, 0, 0⟩ from rfl]
    exact length_zero
  have main : ∀ (dts : List ℝ) (g : FlightControls) (c : Camera), g.atRest →
      (updateTicks (g, c) dts).1 = g ∧ (updateTicks (g, c) dts).2.position = c.position := by
    intro dts
    induction dts with
    | nil => intro g c hg; exact ⟨rfl, rfl⟩
    | cons dt rest ih =>
      intro g c hg
      have step := update_at_rest g c dt hg
      have hg' : (g.update c dt).1.atRest := by
        rw [step.1]
        exact hg
      have hrec := ih (g.update c dt).1 (g.update c dt).2 hg'
      refine ⟨?_, ?_⟩
      · show (updateTicks ((g.update c dt).1, (g.update c dt).2) rest).1 = g
        rw [hrec.1, step.1]
      · show (updateTicks ((g.update c dt).1, (g.update c dt).2) rest).2.position = c.position
        rw [hrec.2, step.2]
  have hm := main dts fc.disable cam hrest
  refine ⟨rfl, rfl, rfl, rfl, rfl, rfl, rfl, rfl, hspeed, hm.2, ?_⟩
  rw [hm.1]
  rfl

/-! ## C5 — positions are a pure function of simulation time -/

lemma updatePlanet_position (p : PlanetData) (t : ℝ) (hm : p.mesh.isSome = true) :
    (updatePlanet t p).position =
      some ⟨Real.cos (t / p.orbitPeriod * angularScale) * p.orbitRadius, 0,
            Real.sin (t / p.orbitPeriod * angularScale) * p.orbitRadius⟩ := by
  obtain ⟨mesh, hmesh⟩ := Option.isSome_iff_exists.mp hm
  simp [updatePlanet, hmesh]

lemma updateMoon_position (m : BodyCore) (parentPos : Vec3) (t : ℝ)
    (hm : m.mesh.isSome = true) :
    (updateMoon parentPos t m).position =
      some (parentPos.add ⟨Real.cos (t / m.orbitPeriod * angularScale) * m.orbitRadius, 0,
                           Real.sin (t / m.orbitPeriod * angularScale) * m.orbitRadius⟩) := by
  obtain ⟨mesh, hmesh⟩ := Option.isSome_iff_exists.mp hm
  simp [updateMoon, hmesh]

lemma updatePlanet_statics (t : ℝ) (p : PlanetData) :
    (updatePlanet t p).orbitPeriod = p.orbitPeriod ∧
    (updatePlanet t p).orbitRadius = p.orbitRadius ∧
    (updatePlanet t p).mesh.isSome = p.mesh.isSome := by
  cases hm : p.mesh <;> simp [updatePlanet, hm]

lemma foldl_updatePlanet_statics (ts : List ℝ) (p : PlanetData) :
    (ts.foldl (fun q τ => updatePlanet τ q) p).orbitPeriod = p.orbitPeriod ∧
    (ts.foldl (fun q τ => updatePlanet τ q) p).orbitRadius = p.orbitRadius ∧
    (ts.foldl (fun q τ => updatePlanet τ q) p).mesh.isSome = p.mesh.isSome := by
  induction ts generalizing p with
  | nil => exact ⟨rfl, rfl, rfl⟩
  | cons τ rest ih =>
    have hs := updatePlanet_statics τ p
    have hr := ih (updatePlanet τ p)
    exact ⟨hr.1.trans hs.1, hr.2.1.trans hs.2.1, hr.2.2.trans hs.2.2⟩

/-- C5: a body's recomputed position is the pure orbital formula — for a
top-level body the origin-relative point (orbitRadius cos a, 0,
orbitRadius sin a) with a = t / orbitPeriod * angularScale, for a moon
the same local point added to the freshly computed parent position, which
is exactly the one handed to every moon update of the same tick — so the
position after any number of intermediate update calls at arbitrary times
equals the position after a single update at the final time, and at t = 0
every body sits at (orbitRadius, 0, 0) relative to its parent. -/
theorem body_position_pure (p : PlanetData) (t : ℝ) (hm : p.mesh.isSome = true) :
    ((updatePlanet t p).position =
      some ⟨Real.cos (t / p.orbitPeriod * angularScale) * p.orbitRadius, 0,
            Real.sin (t / p.orbitPeriod * angularScale) * p.orbitRadius⟩) ∧
    (∀ (m : BodyCore) (parentPos : Vec3), m.mesh.isSome = true →
      (updateMoon parentPos t m).position =
        some (parentPos.add
          ⟨Real.cos (t / m.orbitPeriod * angularScale) * m.orbitRadius, 0,
           Real.sin (t / m.orbitPeriod * angularScale) * m.orbitRadius⟩)) ∧
    ((updatePlanet t p).moons = p.moons.map (updateMoon
        ⟨Real.cos (t / p.orbitPeriod * angularScale) * p.orbitRadius, 0,
         Real.sin (t / p.orbitPeriod * angularScale) * p.orbitRadius⟩ t)) ∧
    (∀ ts : List ℝ,
      (updatePlanet t (ts.foldl (fun q τ => updatePlanet τ q) p)).position =
        (updatePlanet t p).position) ∧
    ((updatePlanet 0 p).position = some ⟨p.orbitRadius, 0, 0⟩) ∧
    (∀ (m : BodyCore) (parentPos : Vec3), m.mesh.isSome = true →
      (updateMoon parentPos 0 m).position = some (parentPos.add ⟨m.orbitRadius, 0, 0⟩)) := by
  obtain ⟨mesh, hmesh⟩ := Option.isSome_iff_exists.mp hm
  refine ⟨updatePlanet_position p t hm,
    fun m parentPos hmm => updateMoon_position m parentPos t hmm, ?_, ?_, ?_, ?_⟩
  · simp [updatePlanet, hmesh]
  · intro ts
    have hs := foldl_updatePlanet_statics ts p
    rw [updatePlanet_position _ t (by rw [hs.2.2]; exact hm), updatePlanet_position p t hm,
      hs.1, hs.2.1]
  · rw [updatePlanet_position p 0 hm]
    norm_num
  · intro m parentPos hmm
    rw [updateMoon_position m parentPos 0 hmm]
    norm_num

/-- C5 witness: the purity statement at a concrete registered body and
time 3. -/
theorem body_position_pure_witness :
    spinPlanet.mesh.isSome = true ∧
    (((updatePlanet 3 spinPlanet).position =
      some ⟨Real.cos (3 / spinPlanet.orbitPeriod * angularScale) * spinPlanet.orbitRadius, 0,
            Real.sin (3 / spinPlanet.orbitPeriod * angularScale) * spinPlanet.orbitRadius⟩) ∧
    (∀ (m : BodyCore) (parentPos : Vec3), m.mesh.isSome = true →
      (updateMoon parentPos 3 m).position =
        some (parentPos.add
          ⟨Real.cos (3 / m.orbitPeriod * angularScale) * m.orbitRadius, 0,
           Real.sin (3 / m.orbitPeriod * angularScale) * m.orbitRadius⟩)) ∧
    ((updatePlanet 3 spinPlanet).moons = spinPlanet.moons.map (updateMoon
        ⟨Real.cos (3 / spinPlanet.orbitPeriod * angularScale) * spinPlanet.orbitRadius, 0,
         Real.sin (3 / spinPlanet.orbitPeriod * angularScale) * spinPlanet.orbitRadius⟩ 3)) ∧
    (∀ ts : List ℝ,
      (updatePlanet 3 (ts.foldl (fun q τ => updatePlanet τ q) spinPlanet)).position =
        (updatePlanet 3 spinPlanet).position) ∧
    ((updatePlanet 0 spinPlanet).position = some ⟨spinPlanet.orbitRadius, 0, 0⟩) ∧
    (∀ (m : BodyCore) (parentPos : Vec3), m.mesh.isSome = true →
      (updateMoon parentPos 0 m).position = some (parentPos.add ⟨m.orbitRadius, 0, 0⟩))) :=
  ⟨rfl, body_position_pure spinPlanet 3 rfl⟩

/-! ## C6 — focusOnNearest selects the first-seen closest body -/

/-- Distance from the camera to a body's current position; bodies the
scan actually measures always carry one, a missing position defaults to
the origin only to totalize the function. -/
noncomputable def bdist (cam : Camera) (b : BodyCore) : ℝ :=
  cam.position.distanceTo (b.position.getD ⟨0, 0, 0⟩)

/-- The bodies focusOnNearest scans, in iteration order: each top-level
body followed by its moons. -/
def scanList : List PlanetData → List BodyCore
  | [] => []
  | p :: ps => p.toBodyCore :: (p.moons ++ scanList ps)

/-- Modelled from the spec: the body at minimum Euclidean camera
distance, ties broken by iteration order (first-seen wins), or none for
an empty scan. -/
noncomputable def nearestBySpec (cam : Camera) : List BodyCore → Option BodyCore
  | [] => none
  | b :: rest =>
    match nearestBySpec cam rest with
    | none => some b
    | some w => if bdist cam b ≤ bdist cam w then some b else some w

/-- Left-to-right running minimum under the strict comparison the
scanning loop uses. -/
noncomputable def minFrom (cam : Camera) (w : BodyCore) : List BodyCore → BodyCore
  | [] => w
  | b :: rest => minFrom cam (if bdist cam b < bdist cam w then b else w) rest

lemma foldl_consider_some (cam : Camera) (l : List BodyCore) :
    ∀ w : BodyCore, (∀ b ∈ l, b.position.isSome = true) →
    l.foldl (considerBody cam) (some (w, bdist cam w)) =
      some (minFrom cam w l, bdist cam (minFrom cam w l)) := by
  induction l with
  | nil => intro w _; rfl
  | cons b rest ih =>
    intro w hpos
    obtain ⟨pos, hb⟩ := Option.isSome_iff_exists.mp (hpos b (List.mem_cons_self b rest))
    have hd : cam.position.distanceTo pos = bdist cam b := by
      simp [bdist, hb]
    have hcb : considerBody cam (some (w, bdist cam w)) b =
        some ((if bdist cam b < bdist cam w then b else w),
              bdist cam (if bdist cam b < bdist cam w then b else w)) := by
      by_cases hlt : bdist cam b < bdist cam w <;> simp [considerBody, hb, hd, hlt]
    calc (b :: rest).foldl (considerBody cam) (some (w, bdist cam w))
        = rest.foldl (considerBody cam) (considerBody cam (some (w, bdist cam w)) b) := rfl
      _ = rest.foldl (considerBody cam)
            (some ((if bdist cam b < bdist cam w then b else w),
                   bdist cam (if bdist cam b < bdist cam w then b else w))) := by rw [hcb]
      _ = some (minFrom cam (if bdist cam b < bdist cam w then b else w) rest,
            bdist cam (minFrom cam (if bdist cam b < bdist cam w then b else w) rest)) :=
          ih _ (fun x hx => hpos x (List.mem_cons_of_mem b hx))
      _ = some (minFrom cam w (b :: rest), bdist cam (minFrom cam w (b :: rest))) := rfl

lemma foldl_consider_none (cam : Camera) (b : BodyCore) (rest : List BodyCore)
    (hpos : ∀ x ∈ b :: rest, x.position.isSome = true) :
    (b :: rest).foldl (considerBody cam) none =
      some (minFrom cam b rest, bdist cam (minFrom cam b rest)) := by
  obtain ⟨pos, hb⟩ := Option.isSome_iff_exists.mp (hpos b (List.mem_cons_self b rest))
  have hd : cam.position.distanceTo pos = bdist cam b := by
    simp [bdist, hb]
  have hcb : considerBody cam none b = some (b, bdist cam b) := by
    simp [considerBody, hb, hd]
  calc (b :: rest).foldl (considerBody cam) none
      = rest.foldl (considerBody cam) (considerBody cam none b) := rfl
    _ = rest.foldl (considerBody cam) (some (b, bdist cam b)) := by rw [hcb]
    _ = some (minFrom cam b rest, bdist cam (minFrom cam b rest)) :=
        foldl_consider_some cam rest b (fun x hx => hpos x (List.mem_cons_of_mem b hx))

lemma nearestBySpec_cons_none (cam : Camera) (b : BodyCore) (rest : List BodyCore)
    (hn : nearestBySpec cam rest = none) :
    nearestBySpec cam (b :: rest) = some b := by
  simp [nearestBySpec, hn]

lemma nearestBySpec_cons_some (cam : Camera) (b v : BodyCore) (rest : List BodyCore)
    (hn : nearestBySpec cam rest = some v) :
    nearestBySpec cam (b :: rest) =
      if bdist cam b ≤ bdist cam v then some b else some v := by
  simp [nearestBySpec, hn]

lemma minFrom_eq_spec (cam : Camera) (l : List BodyCore) :
    ∀ w : BodyCore,
    minFrom cam w l =
      match nearestBySpec cam l with
      | none => w
      | some v => if bdist cam w ≤ bdist cam v then w else v := by
  induction l with
  | nil => intro w; rfl
  | cons b rest ih =>
    intro w
    show minFrom cam (if bdist cam b < bdist cam w then b else w) rest = _
    rw [ih]
    cases hn : nearestBySpec cam rest with
    | none =>
      rw [nearestBySpec_cons_none cam b rest hn]
      show (if bdist cam b < bdist cam w then b else w) =
        if bdist cam w ≤ bdist cam b then w else b
      split_ifs <;> first | rfl | (exfalso; linarith)
    | some v =>
      by_cases hbv : bdist cam b ≤ bdist cam v
      · rw [nearestBySpec_cons_some cam b v rest hn, if_pos hbv]
        show (if bdist cam (if bdist cam b < bdist cam w then b else w) ≤ bdist cam v
            then (if bdist cam b < bdist cam w then b else w) else v) =
          if bdist cam w ≤ bdist cam b then w else b
        split_ifs <;> first | rfl | (exfalso; linarith)
      · rw [nearestBySpec_cons_some cam b v rest hn, if_neg hbv]
        show (if bdist cam (if bdist cam b < bdist cam w then b else w) ≤ bdist cam v
            then (if bdist cam b < bdist cam w then b else w) else v) =
          if bdist cam w ≤ bdist cam v then w else v
        split_ifs <;> first | rfl | (exfalso; linarith)

lemma nearestBySpec_none_iff (cam : Camera) (l : List BodyCore) :
    nearestBySpec cam l = none ↔ l = [] := by
  cases l with
  | nil => simp [nearestBySpec]
  | cons b rest =>
    cases hn : nearestBySpec cam rest with
    | none => simp [nearestBySpec_cons_none cam b rest hn]
    | some v =>
      rw [nearestBySpec_cons_some cam b v rest hn]
      split_ifs <;> simp

lemma nearestBySpec_mem (cam : Camera) (l : List BodyCore) :
    ∀ w : BodyCore, nearestBySpec cam l = some w → w ∈ l := by
  induction l with
  | nil => intro w hw; simp [nearestBySpec] at hw
  | cons b rest ih =>
    intro w hw
    cases hn : nearestBySpec cam rest with
    | none =>
      rw [nearestBySpec_cons_none cam b rest hn] at hw
      obtain rfl := Option.some.inj hw
      exact List.mem_cons_self b rest
    | some v =>
      rw [nearestBySpec_cons_some cam b v rest hn] at hw
      split_ifs at hw with hle
      · obtain rfl := Option.some.inj hw
        exact List.mem_cons_self b rest
      · obtain rfl := Option.some.inj hw
        exact List.mem_cons_of_mem b (ih _ hn)

lemma nearestBySpec_le (cam : Camera) (l : List BodyCore) :
    ∀ w : BodyCore, nearestBySpec cam l = some w →
      ∀ b ∈ l, bdist cam w ≤ bdist cam b := by
  induction l with
  | nil => intro w hw; simp [nearestBySpec] at hw
  | cons b rest ih =>
    intro w hw x hx
    cases hn : nearestBySpec cam rest with
    | none =>
      have hrest : rest = [] := (nearestBySpec_none_iff cam rest).mp hn
      rw [nearestBySpec_cons_none cam b rest hn] at hw
      obtain rfl := Option.some.inj hw
      subst hrest
      obtain rfl : x = b := by simpa using hx
      exact le_refl _
    | some v =>
      rw [nearestBySpec_cons_some cam b v rest hn] at hw
      have hv := ih v hn
      rcases List.mem_cons.mp hx with rfl | hx'
      · split_ifs at hw with hle
        · obtain rfl := Option.some.inj hw
          exact le_refl _
        · obtain rfl := Option.some.inj hw
          linarith
      · split_ifs at hw with hle
        · obtain rfl := Option.some.inj hw
          exact le_trans hle (hv x hx')
        · obtain rfl := Option.some.inj hw
          exact hv x hx'

lemma nearestScan_eq_foldl (cam : Camera) (planets : List PlanetData) :
    ∀ best : Option (BodyCore × ℝ),
    (∀ b ∈ scanList planets, b.position.isSome = true) →
    planets.foldl
      (fun best p =>
        match p.position with
        | none => best
        | some _ => p.moons.foldl (considerBody cam) (considerBody cam best p.toBodyCore))
      best
    = (scanList planets).foldl (considerBody cam) best := by
  induction planets with
  | nil => intro best _; rfl
  | cons p ps ih =>
    intro best hpos
    have hcore : p.toBodyCore.position.isSome = true :=
      hpos p.toBodyCore (by simp [scanList])
    obtain ⟨pos, hp⟩ := Option.isSome_iff_exists.mp hcore
    have hps : ∀ b ∈ scanList ps, b.position.isSome = true := by
      intro b hb
      exact hpos b (by simp [scanList, hb])
    show List.foldl _ (match p.position with
        | none => best
        | some _ => p.moons.foldl (considerBody cam) (considerBody cam best p.toBodyCore)) ps = _
    rw [show p.position = some pos from hp]
    rw [ih _ hps]
    show (scanList ps).foldl (considerBody cam)
        ((p.toBodyCore :: p.moons).foldl (considerBody cam) best) = _
    rw [← List.foldl_append]
    rfl

lemma nearestScan_eq_spec (cam : Camera) (planets : List PlanetData)
    (hpos : ∀ b ∈ scanList planets, b.position.isSome = true) :
    nearestScan cam planets = nearestBySpec cam (scanList planets) := by
  unfold nearestScan
  rw [nearestScan_eq_foldl cam planets none hpos]
  cases hsl : scanList planets with
  | nil => rfl
  | cons b rest =>
    rw [foldl_consider_none cam b rest (hsl ▸ hpos)]
    rw [minFrom_eq_spec cam rest b]
    cases hn : nearestBySpec cam rest with
    | none => simp [nearestBySpec, hn]
    | some v =>
      simp only [nearestBySpec, hn, Option.map_some]
      split_ifs <;> rfl

/-- A registered body 10 units from the origin camera. -/
noncomputable def nearPlanet : PlanetData :=
  { name := "Near", radius := 1, orbitRadius := 1, orbitPeriod := 1, rotationPeriod := 1,
    tilt := 0, mesh := some ⟨0⟩, position := some ⟨10, 0, 0⟩, moons := [] }

/-- A registered body 20 units from the origin camera. -/
noncomputable def farPlanet : PlanetData :=
  { name := "Far", radius := 1, orbitRadius := 1, orbitPeriod := 1, rotationPeriod := 1,
    tilt := 0, mesh := some ⟨0⟩, position := some ⟨20, 0, 0⟩, moons := [] }

/-- C6: focusOnNearest scans every top-level body and every satellite in
iteration order and — when every scanned body carries a position — returns
exactly the first-seen body of minimum Euclidean camera distance (the
spec-level selection nearestBySpec), which is a member of the scan at
minimal distance, and hands it to focusOnPlanet; on an empty body set it
returns none and leaves the focus state and camera untouched. -/
theorem focusOnNearest_selects_nearest (fc : FocusControls) (cam : Camera)
    (planets : List PlanetData)
    (hpos : ∀ b ∈ scanList planets, b.position.isSome = true) :
    (focusOnNearest fc cam planets).2.2 = nearestBySpec cam (scanList planets) ∧
    (∀ w : BodyCore, nearestBySpec cam (scanList planets) = some w →
      w ∈ scanList planets ∧
      (∀ b ∈ scanList planets, bdist cam w ≤ bdist cam b) ∧
      ((focusOnNearest fc cam planets).1, (focusOnNearest fc cam planets).2.1) =
        focusOnPlanet fc cam w) ∧
    focusOnNearest fc cam [] = (fc, cam, none) := by
  have hEq := nearestScan_eq_spec cam planets hpos
  refine ⟨?_, fun w hw => ⟨nearestBySpec_mem cam _ w hw, nearestBySpec_le cam _ w hw, ?_⟩, rfl⟩
  · unfold focusOnNearest
    rw [hEq]
    cases hn : nearestBySpec cam (scanList planets) with
    | none => rfl
    | some w =>
      rcases hfp : focusOnPlanet fc cam w with ⟨fc', cam'⟩
      simp [hfp]
  · unfold focusOnNearest
    rw [hEq, hw]

/-- C6 witness: with the camera at the origin and bodies at distances 10
and 20, the theorem instantiates to the concrete two-body scenario. -/
theorem focusOnNearest_selects_nearest_witness :
    (∀ b ∈ scanList [nearPlanet, farPlanet], b.position.isSome = true) ∧
    ((focusOnNearest idleFocus originCamera [nearPlanet, farPlanet]).2.2 =
      nearestBySpec originCamera (scanList [nearPlanet, farPlanet]) ∧
    (∀ w : BodyCore, nearestBySpec originCamera (scanList [nearPlanet, farPlanet]) = some w →
      w ∈ scanList [nearPlanet, farPlanet] ∧
      (∀ b ∈ scanList [nearPlanet, farPlanet], bdist originCamera w ≤ bdist originCamera b) ∧
      ((focusOnNearest idleFocus originCamera [nearPlanet, farPlanet]).1,
       (focusOnNearest idleFocus originCamera [nearPlanet, farPlanet]).2.1) =
        focusOnPlanet idleFocus originCamera w) ∧
    focusOnNearest idleFocus originCamera [] = (idleFocus, originCamera, none)) := by
  have hpos : ∀ b ∈ scanList [nearPlanet, farPlanet], b.position.isSome = true := by
    intro b hb
    rcases (by simpa [scanList, nearPlanet, farPlanet] using hb :
        b = nearPlanet.toBodyCore ∨ b = farPlanet.toBodyCore) with rfl | rfl <;> rfl
  exact ⟨hpos, focusOnNearest_selects_nearest idleFocus originCamera [nearPlanet, farPlanet] hpos⟩

/-! ## C1 — the per-frame order of the driving loop -/

lemma focus_update_position_transitioning (fc : FocusControls) (cam : Camera)
    (planets : List PlanetData) (dt : ℝ) (target : BodyCore) (tpos : Vec3)
    (hf : fc.isFocused = true)
    (ht : fc.targetPlanet.bind (findBody planets) = some target)
    (hp : target.position = some tpos)
    (hlt : fc.transitionProgress + dt * transitionSpeed < 1) :
    (fc.update cam planets dt).2.position =
      Vec3.lerpVectors fc.originalPosition
        (tpos.add
          ⟨Real.sin (fc.orbitAngle + orbitSpeed * dt) * fc.orbitRadius,
           fc.orbitRadius * 0.3,
           Real.cos (fc.orbitAngle + orbitSpeed * dt) * fc.orbitRadius⟩)
        (easeInOutCubic (fc.transitionProgress + dt * transitionSpeed)) := by
  simp only [FocusControls.update, hf, ht, hp]
  rw [min_eq_left (le_of_lt hlt)]
  rw [if_pos hlt]

lemma animateFrame_focused_camera (s : AppState) (dt : ℝ)
    (hf : s.focusControls.isFocused = true) :
    (animateFrame s dt).1.camera = (s.focusControls.update s.camera s.planets dt).2 := by
  rcases hu : s.focusControls.update s.camera s.planets dt with ⟨fo, cam'⟩
  simp [animateFrame, hf, hu]

lemma animateFrameSpecOrder_focused_camera (s : AppState) (dt : ℝ)
    (hf : s.focusControls.isFocused = true) :
    (animateFrameSpecOrder s dt).1.camera =
      (s.focusControls.update s.camera (updateSolarSystem s.planets (s.time + dt)) dt).2 := by
  rcases hu : s.focusControls.update s.camera (updateSolarSystem s.planets (s.time + dt)) dt
    with ⟨fo, cam'⟩
  simp [animateFrameSpecOrder, hf, hu]

/-- A focus session mid-entry on the body named Terra, as saved when the
camera sat at (10, 0, 0). -/
noncomputable def focusSession : FocusControls :=
  { targetPlanet := some "Terra", isFocused := true, focusDistance := 3,
    focusOffset := ⟨0, 0, 0⟩, currentOffset := ⟨0, 0, 0⟩, transitionProgress := 0,
    orbitAngle := 0, orbitRadius := 3, originalPosition := ⟨10, 0, 0⟩,
    originalQuaternion := ⟨0, 0, 0, 1⟩ }

/-- The application state at time 0: one body, the focus session above
driving. -/
noncomputable def frameState : AppState :=
  { time := 0, planets := [spinPlanet], camera := testCamera,
    flightControls := testFlight, focusControls := focusSession }

lemma findBody_spinPlanet : findBody [spinPlanet] "Terra" = some spinPlanet.toBodyCore := by
  simp [findBody, spinPlanet]

lemma findBody_updated (t : ℝ) :
    findBody [updatePlanet t spinPlanet] "Terra" = some (updatePlanet t spinPlanet).toBodyCore := by
  have hname : (updatePlanet t spinPlanet).name = "Terra" := by
    simp [updatePlanet, spinPlanet]
  simp [findBody, hname]

/-- C1 counterexample: with the focus controller driving, the camera the
frame produces differs from the camera the spec's order would produce —
the controller consumed the body position of the previous frame, not the
one recomputed in this frame (the two readings differ in the z component
by a sin(1/100) term). -/
theorem frame_order_cex :
    (animateFrame frameState (1 / 10)).1.camera.position.z ≠
      (animateFrameSpecOrder frameState (1 / 10)).1.camera.position.z := by
  have hf : frameState.focusControls.isFocused = true := rfl
  have hlt : focusSession.transitionProgress + (1 / 10) * transitionSpeed < 1 := by
    simp only [focusSession, transitionSpeed]
    norm_num
  -- the code-order frame: the controller reads the stale position (1, 0, 0)
  have hL : (animateFrame frameState (1 / 10)).1.camera.position =
      Vec3.lerpVectors (⟨10, 0, 0⟩ : Vec3)
        ((⟨1, 0, 0⟩ : Vec3).add
          ⟨Real.sin (0 + orbitSpeed * (1 / 10)) * 3, 3 * 0.3,
           Real.cos (0 + orbitSpeed * (1 / 10)) * 3⟩)
        (easeInOutCubic (0 + (1 / 10) * transitionSpeed)) := by
    rw [animateFrame_focused_camera frameState (1 / 10) hf]
    have ht : frameState.focusControls.targetPlanet.bind (findBody frameState.planets) =
        some spinPlanet.toBodyCore := by
      simp [frameState, focusSession, findBody_spinPlanet]
    exact focus_update_position_transitioning focusSession testCamera [spinPlanet] (1 / 10)
      spinPlanet.toBodyCore ⟨1, 0, 0⟩ rfl ht rfl hlt
  -- the spec-order frame: the controller would read the fresh position
  have hupdpos : (updatePlanet (frameState.time + 1 / 10) spinPlanet).position =
      some ⟨Real.cos (1 / 100), 0, Real.sin (1 / 100)⟩ := by
    rw [updatePlanet_position spinPlanet _ rfl]
    have h1 : (frameState.time + 1 / 10) / spinPlanet.orbitPeriod * angularScale = 1 / 100 := by
      simp only [frameState, spinPlanet, angularScale]
      norm_num
    rw [h1]
    simp [spinPlanet]
  have hR : (animateFrameSpecOrder frameState (1 / 10)).1.camera.position =
      Vec3.lerpVectors (⟨10, 0, 0⟩ : Vec3)
        ((⟨Real.cos (1 / 100), 0, Real.sin (1 / 100)⟩ : Vec3).add
          ⟨Real.sin (0 + orbitSpeed * (1 / 10)) * 3, 3 * 0.3,
           Real.cos (0 + orbitSpeed * (1 / 10)) * 3⟩)
        (easeInOutCubic (0 + (1 / 10) * transitionSpeed)) := by
    rw [animateFrameSpecOrder_focused_camera frameState (1 / 10) hf]
    have ht : frameState.focusControls.targetPlanet.bind
        (findBody (updateSolarSystem frameState.planets (frameState.time + 1 / 10))) =
        some (updatePlanet (frameState.time + 1 / 10) spinPlanet).toBodyCore := by
      have : updateSolarSystem frameState.planets (frameState.time + 1 / 10) =
          [updatePlanet (frameState.time + 1 / 10) spinPlanet] := by
        simp [updateSolarSystem, frameState]
      rw [this]
      simp [frameState, focusSession, findBody_updated]
    exact focus_update_position_transitioning focusSession testCamera _ (1 / 10)
      (updatePlanet (frameState.time + 1 / 10) spinPlanet).toBodyCore
      ⟨Real.cos (1 / 100), 0, Real.sin (1 / 100)⟩ rfl ht hupdpos hlt
  intro h
  rw [hL, hR] at h
  have hsin : Real.sin (1 / 100) > 0 :=
    Real.sin_pos_of_pos_of_lt_pi (by norm_num)
      (lt_trans (by norm_num) Real.pi_gt_three)
  have hease : easeInOutCubic (0 + (1 / 10) * transitionSpeed) = 4 / 125 := by
    simp only [easeInOutCubic, transitionSpeed]
    norm_num
  simp only [Vec3.lerpVectors, Vec3.add, hease] at h
  nlinarith [hsin]

/-- C1 amended: the per-frame order the loop actually runs is (1) advance
the clock, (2) update the currently-driving controller — focus controller
when focused, free-flight controller otherwise — against the body
positions as recomputed in the PREVIOUS frame (the pre-frame body list),
(3) recompute all body positions and spins at the new time, (4) derive
the display scalars from the just-updated controller, the distance
reading the target through the live reference and therefore the
just-recomputed body list.  So the position a controller reads in a frame
is one frame stale, never the one recomputed in the same frame. -/
theorem frame_order (s : AppState) (dt : ℝ) :
    (animateFrame s dt).1.time = s.time + dt ∧
    (animateFrame s dt).1.planets = updateSolarSystem s.planets (s.time + dt) ∧
    (s.focusControls.isFocused = true →
      (animateFrame s dt).1.camera = (s.focusControls.update s.camera s.planets dt).2 ∧
      (animateFrame s dt).1.focusControls = (s.focusControls.update s.camera s.planets dt).1 ∧
      (animateFrame s dt).1.flightControls = s.flightControls) ∧
    (s.focusControls.isFocused = false →
      (animateFrame s dt).1.camera = (s.flightControls.update s.camera dt).2 ∧
      (animateFrame s dt).1.flightControls = (s.flightControls.update s.camera dt).1 ∧
      (animateFrame s dt).1.focusControls = s.focusControls) ∧
    ((animateFrame s dt).2.speed =
      if (animateFrame s dt).1.focusControls.isFocused then 0
      else (animateFrame s dt).1.flightControls.getSpeed) ∧
    ((animateFrame s dt).2.distance =
      if (animateFrame s dt).1.focusControls.isFocused then
        getDistanceToTarget (animateFrame s dt).1.focusControls (animateFrame s dt).1.camera
          (updateSolarSystem s.planets (s.time + dt))
      else 0) ∧
    (animateFrame s dt).2.targetName = (animateFrame s dt).1.focusControls.targetPlanet := by
  by_cases hf : s.focusControls.isFocused
  · rcases hu : s.focusControls.update s.camera s.planets dt with ⟨fo, cam'⟩
    refine ⟨?_, ?_, fun _ => ⟨?_, ?_, ?_⟩, fun hff => ?_, ?_, ?_, ?_⟩ <;>
      simp [animateFrame, hf, hu]
    rw [hff] at hf
    exact absurd hf (by simp)
  · rcases hu : s.flightControls.update s.camera dt with ⟨fl, cam'⟩
    have hf' : s.focusControls.isFocused = false := by
      simpa using hf
    refine ⟨?_, ?_, fun hff => ?_, fun _ => ⟨?_, ?_, ?_⟩, ?_, ?_, ?_⟩ <;>
      simp [animateFrame, hf', hu]
    rw [hff] at hf'
    exact absurd hf' (by simp)
